import Mathlib

/-!
# Installation API types (`pkg/apis/operator/v1/types.go`)

A shallow embedding of the string-backed enumerations of the operator's
`Installation` resource, their registry lists and their string accessors,
followed by the properties established about them.

Go strings are modelled as Lean `String`s (sequences of Unicode scalar values,
that is, valid UTF-8 text).  A defined string type `type T string` is a
one-field structure over `String`: the conversion `T(s)` is the constructor
`T.mk s` and the conversion `string(v)` is the projection `v.val`.
-/

namespace OperatorV1

/-! ## Enumerations -/

/-- Go `type HostPortsType string`. -/
structure HostPortsType where
  val : String
  deriving DecidableEq, Repr

/-- Go `type MultiInterfaceMode string`. -/
structure MultiInterfaceMode where
  val : String
  deriving DecidableEq, Repr

/-- Go `type EncapsulationType string`. -/
structure EncapsulationType where
  val : String
  deriving DecidableEq, Repr

/-- Go `type NATOutgoingType string`. -/
structure NATOutgoingType where
  val : String
  deriving DecidableEq, Repr

def HostPortsEnabled : HostPortsType := ⟨"Enabled"⟩
def HostPortsDisabled : HostPortsType := ⟨"Disabled"⟩

/-- Go `func (nt HostPortsType) String() string { return string(nt) }`. -/
def HostPortsType.String (nt : HostPortsType) : String := nt.val

def HostPortsTypes : List HostPortsType :=
  [HostPortsEnabled, HostPortsDisabled]

def HostPortsTypesString : List String :=
  [HostPortsEnabled.String, HostPortsDisabled.String]

def MultiInterfaceModeNone : MultiInterfaceMode := ⟨"None"⟩
def MultiInterfaceModeMultus : MultiInterfaceMode := ⟨"Multus"⟩

def EncapsulationIPIPCrossSubnet : EncapsulationType := ⟨"IPIPCrossSubnet"⟩
def EncapsulationIPIP : EncapsulationType := ⟨"IPIP"⟩
def EncapsulationVXLAN : EncapsulationType := ⟨"VXLAN"⟩
def EncapsulationVXLANCrossSubnet : EncapsulationType := ⟨"VXLANCrossSubnet"⟩
def EncapsulationNone : EncapsulationType := ⟨"None"⟩
def EncapsulationDefault : EncapsulationType := EncapsulationIPIP

/-- Go `func (et EncapsulationType) String() string { return string(et) }`. -/
def EncapsulationType.String (et : EncapsulationType) : String := et.val

def EncapsulationTypes : List EncapsulationType :=
  [EncapsulationIPIPCrossSubnet, EncapsulationIPIP, EncapsulationVXLAN,
   EncapsulationVXLANCrossSubnet, EncapsulationNone]

def EncapsulationTypesString : List String :=
  [EncapsulationIPIPCrossSubnet.String, EncapsulationIPIP.String, EncapsulationVXLAN.String,
   EncapsulationVXLANCrossSubnet.String, EncapsulationNone.String]

def NATOutgoingEnabled : NATOutgoingType := ⟨"Enabled"⟩
def NATOutgoingDisabled : NATOutgoingType := ⟨"Disabled"⟩

/-- Go `func (nt NATOutgoingType) String() string { return string(nt) }`. -/
def NATOutgoingType.String (nt : NATOutgoingType) : String := nt.val

def NATOutgoingTypes : List NATOutgoingType :=
  [NATOutgoingEnabled, NATOutgoingDisabled]

def NATOutgoingTypesString : List String :=
  [NATOutgoingEnabled.String, NATOutgoingDisabled.String]

def NodeSelectorDefault : String := "all()"

/-! ## Validation markers

The `+kubebuilder:validation:Enum=...` markers written above the enum-typed
fields, as the lists of strings they spell out.  They are read by an external
schema generator; no Go code of the package consults them. -/

/-- Marker on `CalicoNetworkSpec.HostPorts`: `Enum=Enabled,Disabled`. -/
def HostPortsEnum : List String := ["Enabled", "Disabled"]

/-- Marker on `CalicoNetworkSpec.MultiInterfaceMode`: `Enum=None,Multus`. -/
def MultiInterfaceModeEnum : List String := ["None", "Multus"]

/-- Marker on `IPPool.Encapsulation`:
`Enum=IPIPCrossSubnet,IPIP,VXLAN,VXLANCrossSubnet,None`. -/
def EncapsulationEnum : List String :=
  ["IPIPCrossSubnet", "IPIP", "VXLAN", "VXLANCrossSubnet", "None"]

/-- The options listed by the doc comment of `EncapsulationType`:
"Valid options are: IPIP, VXLAN, IPIPCrossSubnet, VXLANCrossSubnet, None". -/
def EncapsulationDocOptions : List String :=
  ["IPIP", "VXLAN", "IPIPCrossSubnet", "VXLANCrossSubnet", "None"]

/-- Marker on `IPPool.NATOutgoing`: `Enum=Enabled,Disabled`. -/
def NATOutgoingEnum : List String := ["Enabled", "Disabled"]

/-! ## `strings.ToLower`

`MultiInterfaceMode.Value` calls the Go standard library.  The library code is
transcribed for the part that is arithmetic on ASCII; the Unicode case table
consulted for a rune above `unicode.MaxASCII` is a parameter `tbl`. -/

/-- Go `unicode.MaxASCII`. -/
def MaxASCII : Nat := 0x7F

/-- Go `utf8.RuneSelf`: characters below it are a single byte. -/
def RuneSelf : Nat := 0x80

/-- The test `'A' <= c && c <= 'Z'`. -/
def isUpperASCII (c : Char) : Bool := 65 ≤ c.toNat && c.toNat ≤ 90

/-- The step `c += 'a' - 'A'`. -/
def shiftLower (c : Char) : Char := Char.ofNat (c.toNat + 32)

/-- Go `unicode.ToLower`: a rune up to `MaxASCII` is shifted when it is an upper
case letter and returned as is otherwise; any other rune is looked up in the
case table (`unicode.To(unicode.LowerCase, r)`), here `tbl`. -/
def unicodeToLower (tbl : Char → Char) (r : Char) : Char :=
  if r.toNat ≤ MaxASCII then
    if isUpperASCII r then shiftLower r else r
  else tbl r

/-- Go `strings.Map(mapping, s)` for a mapping that never drops a rune. -/
def stringsMap (mapping : Char → Char) (s : String) : String :=
  ⟨s.data.map mapping⟩

/-- Go `strings.ToLower`: a string made of ASCII only is returned unchanged when
it holds no upper case letter and is rewritten byte by byte otherwise; a string
holding a rune outside ASCII goes through `strings.Map(unicode.ToLower, s)`. -/
def stringsToLower (tbl : Char → Char) (s : String) : String :=
  let isASCII := s.data.all (fun c => decide (c.toNat < RuneSelf))
  let hasUpper := s.data.any isUpperASCII
  if isASCII then
    if !hasUpper then s
    else ⟨s.data.map (fun c => if isUpperASCII c then shiftLower c else c)⟩
  else stringsMap (unicodeToLower tbl) s

/-- Go `func (m MultiInterfaceMode) Value() string { return strings.ToLower(string(m)) }`. -/
def MultiInterfaceMode.Value (tbl : Char → Char) (m : MultiInterfaceMode) : String :=
  stringsToLower tbl m.val

/-! ## Records -/

/-- Go `int32`: an integer in the range of 32-bit two's complement. -/
abbrev Int32 : Type := { n : Int // -2147483648 ≤ n ∧ n ≤ 2147483647 }

/-- Go `type NodeAddressAutodetection struct`. A pointer field is an `Option`,
`none` standing for `nil`. -/
structure NodeAddressAutodetection where
  FirstFound : Option Bool
  Interface : String
  SkipInterface : String
  CanReach : String
  deriving DecidableEq

/-- Go `type IPPool struct`. -/
structure IPPool where
  CIDR : String
  Encapsulation : EncapsulationType
  NATOutgoing : NATOutgoingType
  NodeSelector : String
  BlockSize : Option Int32
  deriving DecidableEq

/-- Go `type CalicoNetworkSpec struct`. The slice `IPPools` is `none` when it is
the nil slice and `some l` otherwise. -/
structure CalicoNetworkSpec where
  IPPools : Option (List IPPool)
  MTU : Option Int32
  NodeAddressAutodetectionV4 : Option NodeAddressAutodetection
  NodeAddressAutodetectionV6 : Option NodeAddressAutodetection
  HostPorts : Option HostPortsType
  MultiInterfaceMode : Option MultiInterfaceMode
  deriving DecidableEq

/-- The zero value of `NodeAddressAutodetection`. -/
def NodeAddressAutodetection.zero : NodeAddressAutodetection :=
  { FirstFound := none, Interface := "", SkipInterface := "", CanReach := "" }

/-- The zero value of `IPPool`. -/
def IPPool.zero : IPPool :=
  { CIDR := "", Encapsulation := ⟨""⟩, NATOutgoing := ⟨""⟩, NodeSelector := "",
    BlockSize := none }

/-- The zero value of `CalicoNetworkSpec`. -/
def CalicoNetworkSpec.zero : CalicoNetworkSpec :=
  { IPPools := none, MTU := none, NodeAddressAutodetectionV4 := none,
    NodeAddressAutodetectionV6 := none, HostPorts := none, MultiInterfaceMode := none }

/-! ## Validation markers as predicates

What the `Enum` markers ask of a value.  A field tagged `omitempty` is absent
from the document when it is empty (the empty string, a nil pointer), and an
absent `+optional` field passes; a field that is present must be listed. -/

/-- An `omitempty` string field with an `Enum` marker: empty, or listed. -/
def enumStringOK (allowed : List String) (v : String) : Bool :=
  v == "" || allowed.contains v

/-- An `omitempty` pointer field with an `Enum` marker: nil, or listed. -/
def enumPointerOK (allowed : List String) (v : Option String) : Bool :=
  match v with
  | none => true
  | some x => allowed.contains x

/-- The markers of `IPPool`: on `Encapsulation` and on `NATOutgoing`. -/
def IPPool.markersOK (p : IPPool) : Bool :=
  enumStringOK EncapsulationEnum p.Encapsulation.val &&
  enumStringOK NATOutgoingEnum p.NATOutgoing.val

/-- The markers of `CalicoNetworkSpec`: on `HostPorts` and on `MultiInterfaceMode`. -/
def CalicoNetworkSpec.markersOK (s : CalicoNetworkSpec) : Bool :=
  enumPointerOK HostPortsEnum (s.HostPorts.map HostPortsType.val) &&
  enumPointerOK MultiInterfaceModeEnum (s.MultiInterfaceMode.map MultiInterfaceMode.val)

/-- An `IPPool` whose enum fields hold strings that are no declared literal. -/
def strayPool : IPPool :=
  { CIDR := "192.168.0.0/16", Encapsulation := ⟨"GRE"⟩, NATOutgoing := ⟨"Sometimes"⟩,
    NodeSelector := "", BlockSize := none }

/-- A `CalicoNetworkSpec` whose `HostPorts` is set to a string that is no declared
literal. -/
def straySpec : CalicoNetworkSpec :=
  { CalicoNetworkSpec.zero with HostPorts := some ⟨"Maybe"⟩ }

/-- An `IPPool` with declared literals in its enum fields. -/
def samplePool : IPPool :=
  { CIDR := "192.168.0.0/16", Encapsulation := EncapsulationVXLAN,
    NATOutgoing := NATOutgoingDisabled, NodeSelector := NodeSelectorDefault, BlockSize := none }

/-- A `CalicoNetworkSpec` with `HostPorts` set to `Disabled`. -/
def sampleSpec : CalicoNetworkSpec :=
  { CalicoNetworkSpec.zero with HostPorts := some HostPortsDisabled }

/-- A `CalicoNetworkSpec` with only `MTU` set, to 1400. -/
def mtuSpec : CalicoNetworkSpec :=
  { CalicoNetworkSpec.zero with MTU := some ⟨1400, by decide⟩ }

/-- A case table for examples: it lowers U+00C9 to U+00E9 and keeps every other
rune. -/
def sampleTable (c : Char) : Char :=
  if c.toNat = 201 then Char.ofNat 233 else c

/-- A mode whose string holds a rune outside ASCII: `M`, then U+00C9. -/
def sampleMode : MultiInterfaceMode := ⟨String.mk [Char.ofNat 77, Char.ofNat 201]⟩

/-! ## JSON wire format

Modelled from the spec (§6, "Wire format"; §3 and §8 on optional fields): the
codec is Go's `encoding/json`, driven by the `json:"..."` struct tags, and is
not part of the package.  A document is a JSON value tree.  Field names are
matched exactly as the tags give them; a field tagged `omitempty` is left out
when it is empty (nil pointer, empty string, slice of length zero); an absent
key leaves the field as it was; `null` sets a pointer or slice to nil and leaves
a string alone; keys of the document are applied in order, so a repeated key
overrides; keys that name no field are ignored.  Numbers are integers. -/

/-- Modelled from the spec: a JSON value tree (the wire format's documents). -/
inductive JSON where
  | null : JSON
  | bool (b : Bool) : JSON
  | num (n : Int) : JSON
  | str (s : String) : JSON
  | arr (xs : List JSON) : JSON
  | obj (kvs : List (String × JSON)) : JSON

/-- Modelled from the spec: the members of a JSON object, none for another value. -/
def JSON.members : JSON → List (String × JSON)
  | .obj kvs => kvs
  | _ => []

/-- Modelled from the spec: the keys of a JSON object. -/
def JSON.keys (j : JSON) : List String := j.members.map Prod.fst

/-- Modelled from the spec: a string field tagged `omitempty`. -/
def omitEmptyString (key : String) (v : String) : List (String × JSON) :=
  if v = "" then [] else [(key, JSON.str v)]

/-- Modelled from the spec: a pointer field tagged `omitempty`, already encoded
when it is set. -/
def omitNil (key : String) (v : Option JSON) : List (String × JSON) :=
  match v with
  | none => []
  | some j => [(key, j)]

/-- Modelled from the spec: serialization of `NodeAddressAutodetection` by its tags. -/
def NodeAddressAutodetection.toJSON (a : NodeAddressAutodetection) : JSON :=
  JSON.obj (
    omitNil "firstFound" (a.FirstFound.map JSON.bool) ++
    omitEmptyString "interface" a.Interface ++
    omitEmptyString "skipInterface" a.SkipInterface ++
    omitEmptyString "canReach" a.CanReach)

/-- Modelled from the spec: serialization of `IPPool` by its tags (`cidr` has no
`omitempty`). -/
def IPPool.toJSON (p : IPPool) : JSON :=
  JSON.obj (
    [("cidr", JSON.str p.CIDR)] ++
    omitEmptyString "encapsulation" p.Encapsulation.val ++
    omitEmptyString "natOutgoing" p.NATOutgoing.val ++
    omitEmptyString "nodeSelector" p.NodeSelector ++
    omitNil "blockSize" (p.BlockSize.map (fun n => JSON.num n.val)))

/-- Modelled from the spec: a slice field tagged `omitempty`. -/
def omitEmptyPools (key : String) (v : Option (List IPPool)) : List (String × JSON) :=
  match v with
  | none => []
  | some [] => []
  | some (p :: ps) => [(key, JSON.arr ((p :: ps).map IPPool.toJSON))]

/-- Modelled from the spec: serialization of `CalicoNetworkSpec` by its tags, the
fields in the order of the struct. -/
def CalicoNetworkSpec.toJSON (s : CalicoNetworkSpec) : JSON :=
  JSON.obj (
    omitEmptyPools "ipPools" s.IPPools ++
    omitNil "mtu" (s.MTU.map (fun n => JSON.num n.val)) ++
    omitNil "nodeAddressAutodetectionV4"
      (s.NodeAddressAutodetectionV4.map NodeAddressAutodetection.toJSON) ++
    omitNil "nodeAddressAutodetectionV6"
      (s.NodeAddressAutodetectionV6.map NodeAddressAutodetection.toJSON) ++
    omitNil "hostPorts" (s.HostPorts.map (fun h => JSON.str h.val)) ++
    omitNil "multiInterfaceMode" (s.MultiInterfaceMode.map (fun m => JSON.str m.val)))

/-- Modelled from the spec: decoding into a string field. -/
def decodeString (cur : String) : JSON → Except String String
  | .null => .ok cur
  | .str s => .ok s
  | _ => .error "cannot unmarshal into a string"

/-- Modelled from the spec: decoding into a `*string`-like pointer field. -/
def decodeStringPtr : JSON → Except String (Option String)
  | .null => .ok none
  | .str s => .ok (some s)
  | _ => .error "cannot unmarshal into a string"

/-- Modelled from the spec: decoding into a `*bool` field. -/
def decodeBoolPtr : JSON → Except String (Option Bool)
  | .null => .ok none
  | .bool b => .ok (some b)
  | _ => .error "cannot unmarshal into a bool"

/-- Modelled from the spec: decoding into a `*int32` field. -/
def decodeInt32Ptr : JSON → Except String (Option Int32)
  | .null => .ok none
  | .num n =>
    if h : -2147483648 ≤ n ∧ n ≤ 2147483647 then .ok (some ⟨n, h⟩)
    else .error "number out of the range of int32"
  | _ => .error "cannot unmarshal into an int32"

/-- Modelled from the spec: the members of an object applied in order to a record. -/
def foldFields {σ : Type} (step : σ → String × JSON → Except String σ) :
    σ → List (String × JSON) → Except String σ
  | cur, [] => .ok cur
  | cur, kv :: rest =>
    match step cur kv with
    | .ok next => foldFields step next rest
    | .error e => .error e

/-- Modelled from the spec: one member of a `NodeAddressAutodetection` object. -/
def NodeAddressAutodetection.setField (a : NodeAddressAutodetection) (kv : String × JSON) :
    Except String NodeAddressAutodetection :=
  if kv.1 = "firstFound" then
    (decodeBoolPtr kv.2).map (fun v => { a with FirstFound := v })
  else if kv.1 = "interface" then
    (decodeString a.Interface kv.2).map (fun v => { a with Interface := v })
  else if kv.1 = "skipInterface" then
    (decodeString a.SkipInterface kv.2).map (fun v => { a with SkipInterface := v })
  else if kv.1 = "canReach" then
    (decodeString a.CanReach kv.2).map (fun v => { a with CanReach := v })
  else .ok a

/-- Modelled from the spec: deserialization into a `NodeAddressAutodetection`. -/
def NodeAddressAutodetection.fromJSON (cur : NodeAddressAutodetection) :
    JSON → Except String NodeAddressAutodetection
  | .null => .ok cur
  | .obj kvs => foldFields NodeAddressAutodetection.setField cur kvs
  | _ => .error "cannot unmarshal into a NodeAddressAutodetection"

/-- Modelled from the spec: decoding into a `*NodeAddressAutodetection` field: a set
pointer is decoded into, a nil one is allocated first. -/
def decodeAutodetectionPtr (cur : Option NodeAddressAutodetection) :
    JSON → Except String (Option NodeAddressAutodetection)
  | .null => .ok none
  | j => (NodeAddressAutodetection.fromJSON (cur.getD NodeAddressAutodetection.zero) j).map some

/-- Modelled from the spec: one member of an `IPPool` object. -/
def IPPool.setField (p : IPPool) (kv : String × JSON) : Except String IPPool :=
  if kv.1 = "cidr" then
    (decodeString p.CIDR kv.2).map (fun v => { p with CIDR := v })
  else if kv.1 = "encapsulation" then
    (decodeString p.Encapsulation.val kv.2).map (fun v => { p with Encapsulation := ⟨v⟩ })
  else if kv.1 = "natOutgoing" then
    (decodeString p.NATOutgoing.val kv.2).map (fun v => { p with NATOutgoing := ⟨v⟩ })
  else if kv.1 = "nodeSelector" then
    (decodeString p.NodeSelector kv.2).map (fun v => { p with NodeSelector := v })
  else if kv.1 = "blockSize" then
    (decodeInt32Ptr kv.2).map (fun v => { p with BlockSize := v })
  else .ok p

/-- Modelled from the spec: deserialization into an `IPPool`. -/
def IPPool.fromJSON (cur : IPPool) : JSON → Except String IPPool
  | .null => .ok cur
  | .obj kvs => foldFields IPPool.setField cur kvs
  | _ => .error "cannot unmarshal into an IPPool"

/-- Modelled from the spec: the elements of an array decoded into fresh `IPPool`s. -/
def decodePoolList : List JSON → Except String (List IPPool)
  | [] => .ok []
  | j :: js =>
    match IPPool.fromJSON IPPool.zero j with
    | .ok p =>
      match decodePoolList js with
      | .ok ps => .ok (p :: ps)
      | .error e => .error e
    | .error e => .error e

/-- Modelled from the spec: decoding into the `[]IPPool` field. -/
def decodePools : JSON → Except String (Option (List IPPool))
  | .null => .ok none
  | .arr xs => (decodePoolList xs).map some
  | _ => .error "cannot unmarshal into a slice of IPPool"

/-- Modelled from the spec: one member of a `CalicoNetworkSpec` object. -/
def CalicoNetworkSpec.setField (s : CalicoNetworkSpec) (kv : String × JSON) :
    Except String CalicoNetworkSpec :=
  if kv.1 = "ipPools" then
    (decodePools kv.2).map (fun v => { s with IPPools := v })
  else if kv.1 = "mtu" then
    (decodeInt32Ptr kv.2).map (fun v => { s with MTU := v })
  else if kv.1 = "nodeAddressAutodetectionV4" then
    (decodeAutodetectionPtr s.NodeAddressAutodetectionV4 kv.2).map
      (fun v => { s with NodeAddressAutodetectionV4 := v })
  else if kv.1 = "nodeAddressAutodetectionV6" then
    (decodeAutodetectionPtr s.NodeAddressAutodetectionV6 kv.2).map
      (fun v => { s with NodeAddressAutodetectionV6 := v })
  else if kv.1 = "hostPorts" then
    (decodeStringPtr kv.2).map (fun v => { s with HostPorts := v.map HostPortsType.mk })
  else if kv.1 = "multiInterfaceMode" then
    (decodeStringPtr kv.2).map
      (fun v => { s with MultiInterfaceMode := v.map OperatorV1.MultiInterfaceMode.mk })
  else .ok s

/-- Modelled from the spec: deserialization of a document into a `CalicoNetworkSpec`
that starts from `cur`. -/
def CalicoNetworkSpec.fromJSON (cur : CalicoNetworkSpec) : JSON → Except String CalicoNetworkSpec
  | .null => .ok cur
  | .obj kvs => foldFields CalicoNetworkSpec.setField cur kvs
  | _ => .error "cannot unmarshal into a CalicoNetworkSpec"

/-- Modelled from the spec: deserialization of a document into a fresh
`CalicoNetworkSpec`. -/
def CalicoNetworkSpec.unmarshal (doc : JSON) : Except String CalicoNetworkSpec :=
  CalicoNetworkSpec.fromJSON CalicoNetworkSpec.zero doc

/-- Modelled from the spec: what a slice is after a round trip: an empty slice is left out of the document
and comes back nil. -/
def nilIfEmpty (v : Option (List IPPool)) : Option (List IPPool) :=
  match v with
  | some [] => none
  | x => x

/-! ## The Unicode lower-case table

Go `unicode.ToLower` sends a rune above `unicode.MaxASCII` through
`unicode.To(unicode.LowerCase, r)`, a search of the table `unicode.CaseRanges`.
The table below is the lower-case column of that table for the Unicode Character
Database 14.0.0: the simple lower-case mapping of every rune that has one.  A row `(lo, hi, target, stride)` says that the runes `lo`, `lo + stride`,
..., `hi` are lowered to `target`, `target + stride`, ...; a stride of 2 is a run
in which upper and lower case letters alternate.  A rune covered by no row is
its own lower case. -/

/-- A row `(lo, hi, target, stride)` of the lower-case table. -/
abbrev CaseRow : Type := Nat × Nat × Nat × Nat

/-- First rune of a row. -/
def CaseRow.lo (r : CaseRow) : Nat := r.1

/-- Last rune of a row. -/
def CaseRow.hi (r : CaseRow) : Nat := r.2.1

/-- Lower case of the first rune of a row. -/
def CaseRow.target (r : CaseRow) : Nat := r.2.2.1

/-- Distance between two runes of a row that follow each other. -/
def CaseRow.stride (r : CaseRow) : Nat := r.2.2.2

/-- Lower case of the last rune of a row. -/
def CaseRow.targetHi (r : CaseRow) : Nat := r.target + (r.hi - r.lo)

/-- The lower-case column of Go `unicode.CaseRanges` (Unicode 14.0.0). -/
def lowerCaseRanges : List CaseRow := [
  (0x0041, 0x005A, 0x0061, 1), (0x00C0, 0x00D6, 0x00E0, 1), (0x00D8, 0x00DE, 0x00F8, 1),
  (0x0100, 0x012E, 0x0101, 2), (0x0130, 0x0130, 0x0069, 1), (0x0132, 0x0136, 0x0133, 2),
  (0x0139, 0x0147, 0x013A, 2), (0x014A, 0x0176, 0x014B, 2), (0x0178, 0x0178, 0x00FF, 1),
  (0x0179, 0x017D, 0x017A, 2), (0x0181, 0x0181, 0x0253, 1), (0x0182, 0x0184, 0x0183, 2),
  (0x0186, 0x0186, 0x0254, 1), (0x0187, 0x0187, 0x0188, 1), (0x0189, 0x018A, 0x0256, 1),
  (0x018B, 0x018B, 0x018C, 1), (0x018E, 0x018E, 0x01DD, 1), (0x018F, 0x018F, 0x0259, 1),
  (0x0190, 0x0190, 0x025B, 1), (0x0191, 0x0191, 0x0192, 1), (0x0193, 0x0193, 0x0260, 1),
  (0x0194, 0x0194, 0x0263, 1), (0x0196, 0x0196, 0x0269, 1), (0x0197, 0x0197, 0x0268, 1),
  (0x0198, 0x0198, 0x0199, 1), (0x019C, 0x019C, 0x026F, 1), (0x019D, 0x019D, 0x0272, 1),
  (0x019F, 0x019F, 0x0275, 1), (0x01A0, 0x01A4, 0x01A1, 2), (0x01A6, 0x01A6, 0x0280, 1),
  (0x01A7, 0x01A7, 0x01A8, 1), (0x01A9, 0x01A9, 0x0283, 1), (0x01AC, 0x01AC, 0x01AD, 1),
  (0x01AE, 0x01AE, 0x0288, 1), (0x01AF, 0x01AF, 0x01B0, 1), (0x01B1, 0x01B2, 0x028A, 1),
  (0x01B3, 0x01B5, 0x01B4, 2), (0x01B7, 0x01B7, 0x0292, 1), (0x01B8, 0x01B8, 0x01B9, 1),
  (0x01BC, 0x01BC, 0x01BD, 1), (0x01C4, 0x01C4, 0x01C6, 1), (0x01C5, 0x01C5, 0x01C6, 1),
  (0x01C7, 0x01C7, 0x01C9, 1), (0x01C8, 0x01C8, 0x01C9, 1), (0x01CA, 0x01CA, 0x01CC, 1),
  (0x01CB, 0x01DB, 0x01CC, 2), (0x01DE, 0x01EE, 0x01DF, 2), (0x01F1, 0x01F1, 0x01F3, 1),
  (0x01F2, 0x01F4, 0x01F3, 2), (0x01F6, 0x01F6, 0x0195, 1), (0x01F7, 0x01F7, 0x01BF, 1),
  (0x01F8, 0x021E, 0x01F9, 2), (0x0220, 0x0220, 0x019E, 1), (0x0222, 0x0232, 0x0223, 2),
  (0x023A, 0x023A, 0x2C65, 1), (0x023B, 0x023B, 0x023C, 1), (0x023D, 0x023D, 0x019A, 1),
  (0x023E, 0x023E, 0x2C66, 1), (0x0241, 0x0241, 0x0242, 1), (0x0243, 0x0243, 0x0180, 1),
  (0x0244, 0x0244, 0x0289, 1), (0x0245, 0x0245, 0x028C, 1), (0x0246, 0x024E, 0x0247, 2),
  (0x0370, 0x0372, 0x0371, 2), (0x0376, 0x0376, 0x0377, 1), (0x037F, 0x037F, 0x03F3, 1),
  (0x0386, 0x0386, 0x03AC, 1), (0x0388, 0x038A, 0x03AD, 1), (0x038C, 0x038C, 0x03CC, 1),
  (0x038E, 0x038F, 0x03CD, 1), (0x0391, 0x03A1, 0x03B1, 1), (0x03A3, 0x03AB, 0x03C3, 1),
  (0x03CF, 0x03CF, 0x03D7, 1), (0x03D8, 0x03EE, 0x03D9, 2), (0x03F4, 0x03F4, 0x03B8, 1),
  (0x03F7, 0x03F7, 0x03F8, 1), (0x03F9, 0x03F9, 0x03F2, 1), (0x03FA, 0x03FA, 0x03FB, 1),
  (0x03FD, 0x03FF, 0x037B, 1), (0x0400, 0x040F, 0x0450, 1), (0x0410, 0x042F, 0x0430, 1),
  (0x0460, 0x0480, 0x0461, 2), (0x048A, 0x04BE, 0x048B, 2), (0x04C0, 0x04C0, 0x04CF, 1),
  (0x04C1, 0x04CD, 0x04C2, 2), (0x04D0, 0x052E, 0x04D1, 2), (0x0531, 0x0556, 0x0561, 1),
  (0x10A0, 0x10C5, 0x2D00, 1), (0x10C7, 0x10C7, 0x2D27, 1), (0x10CD, 0x10CD, 0x2D2D, 1),
  (0x13A0, 0x13EF, 0xAB70, 1), (0x13F0, 0x13F5, 0x13F8, 1), (0x1C90, 0x1CBA, 0x10D0, 1),
  (0x1CBD, 0x1CBF, 0x10FD, 1), (0x1E00, 0x1E94, 0x1E01, 2), (0x1E9E, 0x1E9E, 0x00DF, 1),
  (0x1EA0, 0x1EFE, 0x1EA1, 2), (0x1F08, 0x1F0F, 0x1F00, 1), (0x1F18, 0x1F1D, 0x1F10, 1),
  (0x1F28, 0x1F2F, 0x1F20, 1), (0x1F38, 0x1F3F, 0x1F30, 1), (0x1F48, 0x1F4D, 0x1F40, 1),
  (0x1F59, 0x1F5F, 0x1F51, 2), (0x1F68, 0x1F6F, 0x1F60, 1), (0x1F88, 0x1F8F, 0x1F80, 1),
  (0x1F98, 0x1F9F, 0x1F90, 1), (0x1FA8, 0x1FAF, 0x1FA0, 1), (0x1FB8, 0x1FB9, 0x1FB0, 1),
  (0x1FBA, 0x1FBB, 0x1F70, 1), (0x1FBC, 0x1FBC, 0x1FB3, 1), (0x1FC8, 0x1FCB, 0x1F72, 1),
  (0x1FCC, 0x1FCC, 0x1FC3, 1), (0x1FD8, 0x1FD9, 0x1FD0, 1), (0x1FDA, 0x1FDB, 0x1F76, 1),
  (0x1FE8, 0x1FE9, 0x1FE0, 1), (0x1FEA, 0x1FEB, 0x1F7A, 1), (0x1FEC, 0x1FEC, 0x1FE5, 1),
  (0x1FF8, 0x1FF9, 0x1F78, 1), (0x1FFA, 0x1FFB, 0x1F7C, 1), (0x1FFC, 0x1FFC, 0x1FF3, 1),
  (0x2126, 0x2126, 0x03C9, 1), (0x212A, 0x212A, 0x006B, 1), (0x212B, 0x212B, 0x00E5, 1),
  (0x2132, 0x2132, 0x214E, 1), (0x2160, 0x216F, 0x2170, 1), (0x2183, 0x2183, 0x2184, 1),
  (0x24B6, 0x24CF, 0x24D0, 1), (0x2C00, 0x2C2F, 0x2C30, 1), (0x2C60, 0x2C60, 0x2C61, 1),
  (0x2C62, 0x2C62, 0x026B, 1), (0x2C63, 0x2C63, 0x1D7D, 1), (0x2C64, 0x2C64, 0x027D, 1),
  (0x2C67, 0x2C6B, 0x2C68, 2), (0x2C6D, 0x2C6D, 0x0251, 1), (0x2C6E, 0x2C6E, 0x0271, 1),
  (0x2C6F, 0x2C6F, 0x0250, 1), (0x2C70, 0x2C70, 0x0252, 1), (0x2C72, 0x2C72, 0x2C73, 1),
  (0x2C75, 0x2C75, 0x2C76, 1), (0x2C7E, 0x2C7F, 0x023F, 1), (0x2C80, 0x2CE2, 0x2C81, 2),
  (0x2CEB, 0x2CED, 0x2CEC, 2), (0x2CF2, 0x2CF2, 0x2CF3, 1), (0xA640, 0xA66C, 0xA641, 2),
  (0xA680, 0xA69A, 0xA681, 2), (0xA722, 0xA72E, 0xA723, 2), (0xA732, 0xA76E, 0xA733, 2),
  (0xA779, 0xA77B, 0xA77A, 2), (0xA77D, 0xA77D, 0x1D79, 1), (0xA77E, 0xA786, 0xA77F, 2),
  (0xA78B, 0xA78B, 0xA78C, 1), (0xA78D, 0xA78D, 0x0265, 1), (0xA790, 0xA792, 0xA791, 2),
  (0xA796, 0xA7A8, 0xA797, 2), (0xA7AA, 0xA7AA, 0x0266, 1), (0xA7AB, 0xA7AB, 0x025C, 1),
  (0xA7AC, 0xA7AC, 0x0261, 1), (0xA7AD, 0xA7AD, 0x026C, 1), (0xA7AE, 0xA7AE, 0x026A, 1),
  (0xA7B0, 0xA7B0, 0x029E, 1), (0xA7B1, 0xA7B1, 0x0287, 1), (0xA7B2, 0xA7B2, 0x029D, 1),
  (0xA7B3, 0xA7B3, 0xAB53, 1), (0xA7B4, 0xA7C2, 0xA7B5, 2), (0xA7C4, 0xA7C4, 0xA794, 1),
  (0xA7C5, 0xA7C5, 0x0282, 1), (0xA7C6, 0xA7C6, 0x1D8E, 1), (0xA7C7, 0xA7C9, 0xA7C8, 2),
  (0xA7D0, 0xA7D0, 0xA7D1, 1), (0xA7D6, 0xA7D8, 0xA7D7, 2), (0xA7F5, 0xA7F5, 0xA7F6, 1),
  (0xFF21, 0xFF3A, 0xFF41, 1), (0x10400, 0x10427, 0x10428, 1), (0x104B0, 0x104D3, 0x104D8, 1),
  (0x10570, 0x1057A, 0x10597, 1), (0x1057C, 0x1058A, 0x105A3, 1), (0x1058C, 0x10592, 0x105B3, 1),
  (0x10594, 0x10595, 0x105BB, 1), (0x10C80, 0x10CB2, 0x10CC0, 1), (0x118A0, 0x118BF, 0x118C0, 1),
  (0x16E40, 0x16E5F, 0x16E60, 1), (0x1E900, 0x1E921, 0x1E922, 1)]

/-- Whether the rune `n` is one of the runes of the row. -/
def CaseRow.covers (r : CaseRow) (n : Nat) : Bool :=
  decide (r.lo ≤ n) && decide (n ≤ r.hi) && (n - r.lo) % r.stride == 0

/-- The search of the table: the first row that covers the rune gives its lower
case, and a rune no row covers is returned as it is.  (Go searches by bisection;
the rows are disjoint, so the first row that covers a rune is the only one.) -/
def lookupLower : List CaseRow → Nat → Nat
  | [], n => n
  | r :: rest, n => if r.covers n then r.target + (n - r.lo) else lookupLower rest n

/-- Go `unicode.To(unicode.LowerCase, r)`, the case table consulted by
`unicode.ToLower` for a rune `r` above `unicode.MaxASCII`. -/
def unicodeLowerCase (c : Char) : Char :=
  Char.ofNat (lookupLower lowerCaseRanges c.toNat)

/-- No lower case of a rune of `r` is a rune of `q`: the two intervals are apart,
or `q` alternates and the lower cases of `r` all lie on the other parity. -/
def CaseRow.clearOf (r q : CaseRow) : Bool :=
  decide (r.targetHi < q.lo) || decide (q.hi < r.target) ||
  ((r.stride == 2 || r.lo == r.hi) && q.stride == 2 && r.target % 2 != q.lo % 2)

/-- The lower cases of the runes of `r` are valid runes, none of them is an ASCII
upper case letter, and none of them is covered by a row of the table. -/
def CaseRow.settled (tbl : List CaseRow) (r : CaseRow) : Bool :=
  (r.stride == 1 || r.stride == 2) &&
  (decide (r.targetHi < 0xD800) ||
    (decide (0xDFFF < r.target) && decide (r.targetHi < 0x110000))) &&
  (decide (r.targetHi < 65) || decide (90 < r.target)) &&
  tbl.all (fun q => r.clearOf q)

/-- Every row of the table is settled. -/
def tableSettled (tbl : List CaseRow) : Bool := tbl.all (fun r => r.settled tbl)

/-! ## Lemmas on `strings.ToLower` -/

theorem shiftLower_toNat (c : Char) (h : isUpperASCII c = true) :
    (shiftLower c).toNat = c.toNat + 32 := by
  have hc : c = Char.ofNat c.toNat := (Char.ofNat_toNat c).symm
  simp only [isUpperASCII, Bool.and_eq_true, decide_eq_true_eq] at h
  obtain ⟨h1, h2⟩ := h
  generalize c.toNat = n at hc h1 h2
  subst hc
  interval_cases n <;> decide

theorem unicodeToLower_of_ascii (tbl : Char → Char) (c : Char) (h : c.toNat < RuneSelf) :
    unicodeToLower tbl c = if isUpperASCII c then shiftLower c else c := by
  have h2 : c.toNat ≤ MaxASCII := by
    simp only [RuneSelf] at h
    simp only [MaxASCII]
    omega
  simp [unicodeToLower, h2]

theorem unicodeToLower_of_not_upper (tbl : Char → Char) (c : Char) (h : c.toNat < RuneSelf)
    (hu : isUpperASCII c = false) : unicodeToLower tbl c = c := by
  rw [unicodeToLower_of_ascii tbl c h]
  simp [hu]

/-- The two branches for ASCII strings agree with the rune-wise mapping: in every
case `strings.ToLower` maps `unicode.ToLower` over the runes of its argument. -/
theorem stringsToLower_data (tbl : Char → Char) (s : String) :
    (stringsToLower tbl s).data = s.data.map (unicodeToLower tbl) := by
  unfold stringsToLower
  by_cases hA : (s.data.all (fun c => decide (c.toNat < RuneSelf))) = true
  · have hall : ∀ c ∈ s.data, c.toNat < RuneSelf := by
      intro c hc
      have := (List.all_eq_true.mp hA) c hc
      simpa using this
    by_cases hU : s.data.any isUpperASCII = true
    · simp only [hA, hU, if_true, Bool.not_true, Bool.false_eq_true, if_false]
      apply List.map_congr_left
      intro c hc
      exact (unicodeToLower_of_ascii tbl c (hall c hc)).symm
    · simp only [hA, hU, if_true, Bool.not_false]
      have hnone : ∀ c ∈ s.data, isUpperASCII c = false := by
        intro c hc
        by_contra hcon
        exact hU (List.any_eq_true.mpr ⟨c, hc, by simpa using hcon⟩)
      have : s.data.map (unicodeToLower tbl) = s.data.map id := by
        apply List.map_congr_left
        intro c hc
        exact unicodeToLower_of_not_upper tbl c (hall c hc) (hnone c hc)
      rw [this, List.map_id]
  · simp only [hA, Bool.false_eq_true, if_false, stringsMap]

/-- On ASCII runes `unicode.ToLower` reaches a fixed point in one step. -/
theorem unicodeToLower_idem_ascii (tbl : Char → Char) (c : Char) (h : c.toNat ≤ MaxASCII) :
    unicodeToLower tbl (unicodeToLower tbl c) = unicodeToLower tbl c := by
  by_cases hu : isUpperASCII c = true
  · have hn := shiftLower_toNat c hu
    have hb : 65 ≤ c.toNat ∧ c.toNat ≤ 90 := by
      simp only [isUpperASCII, Bool.and_eq_true, decide_eq_true_eq] at hu
      exact hu
    have h1 : unicodeToLower tbl c = shiftLower c := by simp [unicodeToLower, h, hu]
    have h2 : (shiftLower c).toNat ≤ MaxASCII := by
      show (shiftLower c).toNat ≤ 127
      omega
    have h3 : isUpperASCII (shiftLower c) = false := by
      simp only [isUpperASCII, hn, Bool.and_eq_false_iff, decide_eq_false_iff_not]
      right
      omega
    rw [h1]
    simp [unicodeToLower, h2, h3]
  · have h1 : unicodeToLower tbl c = c := by simp [unicodeToLower, h, hu]
    rw [h1, h1]

/-! ## Lemmas on the Unicode lower-case table -/

theorem lowerCaseRanges_settled : tableSettled lowerCaseRanges = true := by
  decide!

theorem lookupLower_cases (tbl : List CaseRow) (n : Nat) :
    lookupLower tbl n = n ∨
    ∃ r ∈ tbl, r.covers n = true ∧ lookupLower tbl n = r.target + (n - r.lo) := by
  induction tbl with
  | nil => exact Or.inl rfl
  | cons r rest ih =>
    by_cases hc : r.covers n = true
    · right
      exact ⟨r, List.mem_cons_self _ _, hc, by simp [lookupLower, hc]⟩
    · have hstep : lookupLower (r :: rest) n = lookupLower rest n := by
        simp [lookupLower, hc]
      rcases ih with h | ⟨q, hq, hqc, hqv⟩
      · left
        rw [hstep, h]
      · right
        exact ⟨q, List.mem_cons_of_mem _ hq, hqc, by rw [hstep, hqv]⟩

theorem lookupLower_of_clear (tbl : List CaseRow) (k : Nat)
    (h : ∀ q ∈ tbl, q.covers k = false) : lookupLower tbl k = k := by
  induction tbl with
  | nil => rfl
  | cons r rest ih =>
    have hr := h r (List.mem_cons_self _ _)
    simp only [lookupLower, hr, Bool.false_eq_true, if_false]
    exact ih (fun q hq => h q (List.mem_cons_of_mem _ hq))

theorem CaseRow.clearOf_sound (r q : CaseRow) (n : Nat)
    (hs : r.stride = 1 ∨ r.stride = 2) (hc : r.covers n = true) (hq : r.clearOf q = true) :
    q.covers (r.target + (n - r.lo)) = false := by
  obtain ⟨lo, hi, t, s⟩ := r
  obtain ⟨qlo, qhi, qt, qs⟩ := q
  simp only [CaseRow.covers, CaseRow.clearOf, CaseRow.lo, CaseRow.hi, CaseRow.target,
    CaseRow.stride, CaseRow.targetHi, Bool.and_eq_true, Bool.or_eq_true, decide_eq_true_eq,
    beq_iff_eq, bne_iff_ne, ne_eq] at hs hc hq ⊢
  obtain ⟨⟨h1, h2⟩, h3⟩ := hc
  rw [Bool.eq_false_iff]
  simp only [ne_eq, Bool.and_eq_true, decide_eq_true_eq, beq_iff_eq, not_and]
  intro ⟨g1, g2⟩
  rcases hq with (hq | hq) | ⟨⟨hq1, hq2⟩, hq3⟩
  · omega
  · omega
  · subst hq2
    rcases hs with hs | hs
    · subst hs
      rcases hq1 with hq1 | hq1
      · omega
      · omega
    · subst hs
      omega

theorem tableSettled_image (tbl : List CaseRow) (h : tableSettled tbl = true) (n : Nat) :
    lookupLower tbl n = n ∨
    ((lookupLower tbl n < 0xD800 ∨
        (0xDFFF < lookupLower tbl n ∧ lookupLower tbl n < 0x110000)) ∧
      (lookupLower tbl n < 65 ∨ 90 < lookupLower tbl n) ∧
      lookupLower tbl (lookupLower tbl n) = lookupLower tbl n) := by
  rcases lookupLower_cases tbl n with h0 | ⟨r, hr, hc, hv⟩
  · exact Or.inl h0
  · right
    have hsr := (List.all_eq_true.mp h) r hr
    simp only [CaseRow.settled, Bool.and_eq_true, Bool.or_eq_true, beq_iff_eq,
      decide_eq_true_eq, List.all_eq_true] at hsr
    obtain ⟨⟨⟨hstride, hvalid⟩, hupper⟩, hall⟩ := hsr
    have hfix := lookupLower_of_clear tbl (r.target + (n - r.lo))
      (fun q hq => CaseRow.clearOf_sound r q n hstride hc (hall q hq))
    have hb : r.lo ≤ n ∧ n ≤ r.hi := by
      simp only [CaseRow.covers, Bool.and_eq_true, decide_eq_true_eq] at hc
      exact hc.1
    rw [hv]
    simp only [CaseRow.targetHi] at hvalid hupper
    refine ⟨?_, ?_, hfix⟩
    · omega
    · omega

theorem toNat_ofNat_of_valid (k : Nat)
    (h : k < 0xD800 ∨ (0xDFFF < k ∧ k < 0x110000)) : (Char.ofNat k).toNat = k := by
  have hv : k.isValidChar := h
  unfold Char.ofNat
  rw [dif_pos hv]
  rfl

/-- A rune above ASCII is sent by the table to a rune that `unicode.ToLower` keeps. -/
theorem unicodeLowerCase_fixed (c : Char) (hc : MaxASCII < c.toNat) :
    unicodeToLower unicodeLowerCase (unicodeLowerCase c) = unicodeLowerCase c := by
  have hnot : ¬ c.toNat ≤ MaxASCII := Nat.not_le_of_lt hc
  rcases tableSettled_image lowerCaseRanges lowerCaseRanges_settled c.toNat with h | ⟨hv, hu, hf⟩
  · have hself : unicodeLowerCase c = c := by
      simp only [unicodeLowerCase, h, Char.ofNat_toNat]
    rw [hself]
    simp only [unicodeToLower, hnot, if_false, hself]
  · have hk := toNat_ofNat_of_valid (lookupLower lowerCaseRanges c.toNat) hv
    by_cases hA : (unicodeLowerCase c).toNat ≤ MaxASCII
    · have hup : isUpperASCII (unicodeLowerCase c) = false := by
        simp only [isUpperASCII, unicodeLowerCase, hk, Bool.and_eq_false_iff,
          decide_eq_false_iff_not]
        omega
      simp only [unicodeToLower, hA, if_true, hup, Bool.false_eq_true, if_false]
    · simp only [unicodeToLower, hA, if_false]
      simp only [unicodeLowerCase, hk, hf]

/-- `Value` applied twice is `Value` applied once, for a string whose runes above
ASCII the case table sends to runes that `unicode.ToLower` keeps. -/
theorem Value_idem_of_fixed (tbl : Char → Char) (m : MultiInterfaceMode)
    (h : ∀ c ∈ m.val.data, MaxASCII < c.toNat → unicodeToLower tbl (tbl c) = tbl c) :
    (MultiInterfaceMode.mk (m.Value tbl)).Value tbl = m.Value tbl := by
  have key : ∀ c ∈ m.val.data,
      unicodeToLower tbl (unicodeToLower tbl c) = unicodeToLower tbl c := by
    intro c hc
    by_cases hA : c.toNat ≤ MaxASCII
    · exact unicodeToLower_idem_ascii tbl c hA
    · have hlt : MaxASCII < c.toNat := Nat.lt_of_not_le hA
      have h1 : unicodeToLower tbl c = tbl c := by simp [unicodeToLower, hA]
      rw [h1]
      exact h c hc hlt
  apply String.ext
  simp only [MultiInterfaceMode.Value, stringsToLower_data, List.map_map]
  apply List.map_congr_left
  intro c hc
  exact key c hc

/-! ## Lemmas on the JSON wire format -/

theorem foldFields_append {σ : Type} (step : σ → String × JSON → Except String σ)
    (l1 l2 : List (String × JSON)) (cur mid : σ) (h : foldFields step cur l1 = .ok mid) :
    foldFields step cur (l1 ++ l2) = foldFields step mid l2 := by
  induction l1 generalizing cur with
  | nil =>
    simp only [foldFields, Except.ok.injEq] at h
    subst h
    rfl
  | cons kv rest ih =>
    simp only [List.cons_append, foldFields]
    simp only [foldFields] at h
    cases hstep : step cur kv with
    | error e => simp [hstep] at h
    | ok next =>
      simp only [hstep] at h ⊢
      exact ih next h

theorem NodeAddressAutodetection.autodetection_round_trip (a : NodeAddressAutodetection) :
    NodeAddressAutodetection.fromJSON NodeAddressAutodetection.zero a.toJSON = .ok a := by
  obtain ⟨ff, i, si, cr⟩ := a
  cases ff <;> by_cases hi : i = "" <;> by_cases hs : si = "" <;> by_cases hc : cr = "" <;>
    simp [NodeAddressAutodetection.toJSON, NodeAddressAutodetection.fromJSON, omitNil,
      omitEmptyString, foldFields, NodeAddressAutodetection.setField, decodeBoolPtr,
      decodeString, NodeAddressAutodetection.zero, Except.map, hi, hs, hc]

theorem IPPool.pool_round_trip (p : IPPool) :
    IPPool.fromJSON IPPool.zero p.toJSON = .ok p := by
  obtain ⟨cidr, ⟨enc⟩, ⟨nat⟩, sel, bs⟩ := p
  rcases bs with _ | ⟨n, hn⟩
  · by_cases he : enc = "" <;> by_cases hs : nat = "" <;> by_cases hc : sel = "" <;>
      simp [IPPool.toJSON, IPPool.fromJSON, omitNil, omitEmptyString, foldFields,
        IPPool.setField, decodeString, IPPool.zero, Except.map, he, hs, hc]
  · by_cases he : enc = "" <;> by_cases hs : nat = "" <;> by_cases hc : sel = "" <;>
      simp [IPPool.toJSON, IPPool.fromJSON, omitNil, omitEmptyString, foldFields,
        IPPool.setField, decodeInt32Ptr, decodeString, IPPool.zero, Except.map, he, hs, hc, hn]

theorem decodePoolList_toJSON (ps : List IPPool) :
    decodePoolList (ps.map IPPool.toJSON) = .ok ps := by
  induction ps with
  | nil => rfl
  | cons p ps ih => simp [decodePoolList, IPPool.pool_round_trip, ih]


theorem decodeAutodetectionPtr_toJSON (a : NodeAddressAutodetection) :
    decodeAutodetectionPtr none a.toJSON = .ok (some a) := by
  have h := NodeAddressAutodetection.autodetection_round_trip a
  obtain ⟨kvs, hk⟩ : ∃ kvs, a.toJSON = JSON.obj kvs := ⟨_, rfl⟩
  rw [hk] at h ⊢
  simp only [decodeAutodetectionPtr, Option.getD, h, Except.map]

theorem decodePools_toJSON (p : IPPool) (ps : List IPPool) :
    decodePools (JSON.arr (p.toJSON :: ps.map IPPool.toJSON)) = .ok (some (p :: ps)) := by
  have h := decodePoolList_toJSON (p :: ps)
  simp only [List.map_cons] at h
  simp only [decodePools, h, Except.map]

theorem decodeInt32Ptr_val (n : Int32) : decodeInt32Ptr (JSON.num n.val) = .ok (some n) := by
  obtain ⟨n, hn⟩ := n
  simp [decodeInt32Ptr, hn]

theorem CalicoNetworkSpec.unmarshal_toJSON (s : CalicoNetworkSpec) :
    CalicoNetworkSpec.unmarshal s.toJSON = .ok { s with IPPools := nilIfEmpty s.IPPools } := by
  obtain ⟨pools, mtu, v4, v6, hp, mim⟩ := s
  rcases pools with _ | _ | ⟨p, ps⟩ <;> cases mtu <;> cases v4 <;> cases v6 <;> cases hp <;>
    cases mim <;>
    simp [CalicoNetworkSpec.unmarshal, CalicoNetworkSpec.toJSON, CalicoNetworkSpec.fromJSON,
      omitNil, omitEmptyPools, foldFields, CalicoNetworkSpec.setField, decodeStringPtr,
      decodeInt32Ptr_val, decodePools_toJSON, decodeAutodetectionPtr_toJSON,
      CalicoNetworkSpec.zero, Except.map, nilIfEmpty]

theorem CalicoNetworkSpec.setField_HostPorts (s t : CalicoNetworkSpec) (kv : String × JSON)
    (hk : kv.1 ≠ "hostPorts") (h : s.setField kv = .ok t) : t.HostPorts = s.HostPorts := by
  unfold CalicoNetworkSpec.setField at h
  split_ifs at h with h1 h2 h3 h4 h5
  · cases hd : decodePools kv.2 with
    | error e => simp [hd, Except.map] at h
    | ok v => simp [hd, Except.map] at h; subst h; rfl
  · cases hd : decodeInt32Ptr kv.2 with
    | error e => simp [hd, Except.map] at h
    | ok v => simp [hd, Except.map] at h; subst h; rfl
  · cases hd : decodeAutodetectionPtr s.NodeAddressAutodetectionV4 kv.2 with
    | error e => simp [hd, Except.map] at h
    | ok v => simp [hd, Except.map] at h; subst h; rfl
  · cases hd : decodeAutodetectionPtr s.NodeAddressAutodetectionV6 kv.2 with
    | error e => simp [hd, Except.map] at h
    | ok v => simp [hd, Except.map] at h; subst h; rfl
  · cases hd : decodeStringPtr kv.2 with
    | error e => simp [hd, Except.map] at h
    | ok v => simp [hd, Except.map] at h; subst h; rfl
  · simp at h; subst h; rfl

theorem CalicoNetworkSpec.foldFields_HostPorts (kvs : List (String × JSON))
    (cur t : CalicoNetworkSpec) (hk : ∀ kv ∈ kvs, kv.1 ≠ "hostPorts")
    (h : foldFields CalicoNetworkSpec.setField cur kvs = .ok t) :
    t.HostPorts = cur.HostPorts := by
  induction kvs generalizing cur with
  | nil =>
    simp only [foldFields, Except.ok.injEq] at h
    subst h
    rfl
  | cons kv rest ih =>
    simp only [foldFields] at h
    cases hstep : cur.setField kv with
    | error e => simp [hstep] at h
    | ok next =>
      simp only [hstep] at h
      have h1 := ih next (fun x hx => hk x (List.mem_cons_of_mem _ hx)) h
      have h2 := CalicoNetworkSpec.setField_HostPorts cur next kv (hk kv (List.mem_cons_self _ _)) hstep
      rw [h1, h2]

theorem CalicoNetworkSpec.toJSON_keys_of_nil (s : CalicoNetworkSpec) (h : s.HostPorts = none) :
    "hostPorts" ∉ s.toJSON.keys := by
  obtain ⟨pools, mtu, v4, v6, hp, mim⟩ := s
  simp only at h
  subst h
  rcases pools with _ | _ | ⟨p, ps⟩ <;> cases mtu <;> cases v4 <;> cases v6 <;> cases mim <;>
    simp [CalicoNetworkSpec.toJSON, JSON.keys, JSON.members, omitNil, omitEmptyPools]

theorem CalicoNetworkSpec.toJSON_member_of_set (s : CalicoNetworkSpec) (v : HostPortsType)
    (h : s.HostPorts = some v) : ("hostPorts", JSON.str v.val) ∈ s.toJSON.members := by
  simp [CalicoNetworkSpec.toJSON, JSON.members, omitNil, h]

/-! ## Properties of the enumerations -/

/-- C1: each string registry list is the element-wise `String()` image of the
typed registry list, in the same order and of the same length, for
`HostPortsTypes`, `EncapsulationTypes` and `NATOutgoingTypes`. -/
theorem registry_strings_eq_map_String :
    HostPortsTypesString = HostPortsTypes.map HostPortsType.String ∧
    EncapsulationTypesString = EncapsulationTypes.map EncapsulationType.String ∧
    NATOutgoingTypesString = NATOutgoingTypes.map NATOutgoingType.String ∧
    HostPortsTypesString.length = HostPortsTypes.length ∧
    EncapsulationTypesString.length = EncapsulationTypes.length ∧
    NATOutgoingTypesString.length = NATOutgoingTypes.length := by
  refine ⟨rfl, rfl, rfl, rfl, rfl, rfl⟩

/-- C3: for `HostPortsType`, `EncapsulationType` and `NATOutgoingType`, converting
`v.String()` back to the enum type gives `v` again for every value `v`, and
`String()` is injective on each of the three types. -/
theorem String_conversion_left_inverse :
    (∀ v : HostPortsType, HostPortsType.mk v.String = v) ∧
    (∀ v : EncapsulationType, EncapsulationType.mk v.String = v) ∧
    (∀ v : NATOutgoingType, NATOutgoingType.mk v.String = v) ∧
    Function.Injective HostPortsType.String ∧
    Function.Injective EncapsulationType.String ∧
    Function.Injective NATOutgoingType.String := by
  refine ⟨fun v => rfl, fun v => rfl, fun v => rfl, ?_, ?_, ?_⟩
  · rintro ⟨a⟩ ⟨b⟩ h
    exact congrArg HostPortsType.mk h
  · rintro ⟨a⟩ ⟨b⟩ h
    exact congrArg EncapsulationType.mk h
  · rintro ⟨a⟩ ⟨b⟩ h
    exact congrArg NATOutgoingType.mk h

/-- C5: every element of a registry list is one of the declared constants of its
type, and a value belongs to a registry list exactly when its string is one the
validation marker of the matching field lists (for `EncapsulationTypes` also
exactly when it is one the doc comment of the type lists). -/
theorem registries_cover_declared_literals :
    (∀ e, e ∈ EncapsulationTypes ↔
      e = EncapsulationIPIPCrossSubnet ∨ e = EncapsulationIPIP ∨ e = EncapsulationVXLAN ∨
      e = EncapsulationVXLANCrossSubnet ∨ e = EncapsulationNone) ∧
    (∀ e : EncapsulationType, e ∈ EncapsulationTypes ↔ e.String ∈ EncapsulationEnum) ∧
    (∀ e : EncapsulationType, e ∈ EncapsulationTypes ↔ e.String ∈ EncapsulationDocOptions) ∧
    (∀ h, h ∈ HostPortsTypes ↔ h = HostPortsEnabled ∨ h = HostPortsDisabled) ∧
    (∀ h : HostPortsType, h ∈ HostPortsTypes ↔ h.String ∈ HostPortsEnum) ∧
    (∀ n, n ∈ NATOutgoingTypes ↔ n = NATOutgoingEnabled ∨ n = NATOutgoingDisabled) ∧
    (∀ n : NATOutgoingType, n ∈ NATOutgoingTypes ↔ n.String ∈ NATOutgoingEnum) ∧
    EncapsulationTypes.map EncapsulationType.String = EncapsulationEnum ∧
    HostPortsTypes.map HostPortsType.String = HostPortsEnum ∧
    NATOutgoingTypes.map NATOutgoingType.String = NATOutgoingEnum ∧
    EncapsulationTypes.Nodup ∧ HostPortsTypes.Nodup ∧ NATOutgoingTypes.Nodup := by
  refine ⟨?_, ?_, ?_, ?_, ?_, ?_, ?_, rfl, rfl, rfl, by decide, by decide, by decide⟩
  · intro e
    simp [EncapsulationTypes]
  · rintro ⟨s⟩
    simp [EncapsulationTypes, EncapsulationEnum, EncapsulationType.String,
      EncapsulationIPIPCrossSubnet, EncapsulationIPIP, EncapsulationVXLAN,
      EncapsulationVXLANCrossSubnet, EncapsulationNone]
  · rintro ⟨s⟩
    simp [EncapsulationTypes, EncapsulationDocOptions, EncapsulationType.String,
      EncapsulationIPIPCrossSubnet, EncapsulationIPIP, EncapsulationVXLAN,
      EncapsulationVXLANCrossSubnet, EncapsulationNone]
    tauto
  · intro h
    simp [HostPortsTypes]
  · rintro ⟨s⟩
    simp [HostPortsTypes, HostPortsEnum, HostPortsType.String, HostPortsEnabled,
      HostPortsDisabled]
  · intro n
    simp [NATOutgoingTypes]
  · rintro ⟨s⟩
    simp [NATOutgoingTypes, NATOutgoingEnum, NATOutgoingType.String, NATOutgoingEnabled,
      NATOutgoingDisabled]

/-- C7: `EncapsulationDefault` is `EncapsulationIPIP`, its `String()` is `"IPIP"`,
it is an element of `EncapsulationTypes`, and `NodeSelectorDefault` is the
string `all()`. -/
theorem default_constants :
    EncapsulationDefault = EncapsulationIPIP ∧
    EncapsulationDefault.String = "IPIP" ∧
    EncapsulationDefault ∈ EncapsulationTypes ∧
    NodeSelectorDefault = "all()" := by
  refine ⟨rfl, rfl, by decide, rfl⟩

/-- C8: the three `String()` accessors return the underlying string of their
receiver unchanged for every string whatever (declared literal or not, the
empty string included); on the declared constants they give `"Enabled"`,
`"VXLANCrossSubnet"` and `"Disabled"`. -/
theorem String_returns_underlying_string :
    (∀ s : String, (HostPortsType.mk s).String = s) ∧
    (∀ s : String, (EncapsulationType.mk s).String = s) ∧
    (∀ s : String, (NATOutgoingType.mk s).String = s) ∧
    (HostPortsType.mk "").String = "" ∧
    (EncapsulationType.mk "").String = "" ∧
    (NATOutgoingType.mk "").String = "" ∧
    HostPortsEnabled.String = "Enabled" ∧
    EncapsulationVXLANCrossSubnet.String = "VXLANCrossSubnet" ∧
    NATOutgoingDisabled.String = "Disabled" := by
  refine ⟨fun s => rfl, fun s => rfl, fun s => rfl, rfl, rfl, rfl, rfl, rfl, rfl⟩

/-- C2: for every `MultiInterfaceMode` value `m`, `m.Value()` is the lower-cased
form of the underlying string of `m`: it is `strings.ToLower` of that string,
which is the string with `unicode.ToLower` applied to each rune (same length,
same order).  In particular `"Multus"` gives `"multus"` and `"None"` gives
`"none"`, whatever the Unicode case table. -/
theorem Value_is_lower_cased (tbl : Char → Char) :
    (∀ m : MultiInterfaceMode, m.Value tbl = stringsToLower tbl m.val) ∧
    (∀ m : MultiInterfaceMode, (m.Value tbl).data = m.val.data.map (unicodeToLower tbl)) ∧
    (∀ m : MultiInterfaceMode, (m.Value tbl).length = m.val.length) ∧
    (MultiInterfaceMode.mk "Multus").Value tbl = "multus" ∧
    (MultiInterfaceMode.mk "None").Value tbl = "none" ∧
    MultiInterfaceModeMultus.Value tbl = "multus" ∧
    MultiInterfaceModeNone.Value tbl = "none" := by
  refine ⟨fun m => rfl, fun m => stringsToLower_data tbl m.val, ?_, ?_, ?_, ?_, ?_⟩
  · intro m
    simp only [String.length, MultiInterfaceMode.Value, stringsToLower_data, List.length_map]
  all_goals rfl

/-- C10: `Value` is idempotent: `MultiInterfaceMode(m.Value()).Value() = m.Value()`
for every `m`, with the Unicode case table that `unicode.ToLower` consults.  It
is not injective: `"Multus"` and `"multus"` are distinct values with the same
`Value()`, whatever the case table.  The declared constants `None` and `Multus`
have distinct `Value()`.  On `sampleMode`, whose second rune is outside ASCII,
`Value()` is `m` followed by U+00E9. -/
theorem Value_idempotent_not_injective :
    (∀ m : MultiInterfaceMode,
      (MultiInterfaceMode.mk (m.Value unicodeLowerCase)).Value unicodeLowerCase =
        m.Value unicodeLowerCase) ∧
    sampleMode.Value unicodeLowerCase = String.mk [Char.ofNat 109, Char.ofNat 233] ∧
    (∀ tbl : Char → Char,
      MultiInterfaceMode.mk "Multus" ≠ MultiInterfaceMode.mk "multus" ∧
      (MultiInterfaceMode.mk "Multus").Value tbl =
        (MultiInterfaceMode.mk "multus").Value tbl) ∧
    (∀ tbl : Char → Char, ∃ a b : MultiInterfaceMode, a ≠ b ∧ a.Value tbl = b.Value tbl) ∧
    (∀ tbl : Char → Char,
      MultiInterfaceModeNone.Value tbl ≠ MultiInterfaceModeMultus.Value tbl) := by
  refine ⟨?_, by decide, fun tbl => ⟨by decide, rfl⟩,
    fun tbl => ⟨⟨"Multus"⟩, ⟨"multus"⟩, by decide, rfl⟩, ?_⟩
  · intro m
    exact Value_idem_of_fixed unicodeLowerCase m (fun c _ hc => unicodeLowerCase_fixed c hc)
  · intro tbl
    have h1 : MultiInterfaceModeNone.Value tbl = "none" := rfl
    have h2 : MultiInterfaceModeMultus.Value tbl = "multus" := rfl
    rw [h1, h2]
    decide

/-- C4, as stated, fails: converting `MultiInterfaceModeNone.Value()`, which is
`"none"`, back to a `MultiInterfaceMode` does not give `MultiInterfaceModeNone`,
so the round trip does not hold for every declared literal. -/
theorem Value_round_trip_fails :
    MultiInterfaceMode.mk (MultiInterfaceModeNone.Value sampleTable) ≠ MultiInterfaceModeNone ∧
    ¬ (∀ (tbl : Char → Char) (m : MultiInterfaceMode),
        (m = MultiInterfaceModeNone ∨ m = MultiInterfaceModeMultus) →
        MultiInterfaceMode.mk (m.Value tbl) = m) := by
  refine ⟨by decide, ?_⟩
  intro hall
  have hbad := hall sampleTable MultiInterfaceModeNone (Or.inl rfl)
  revert hbad
  decide

/-- C4, amended: for every declared literal `m`, the conversion of `m.Value()` back
to a `MultiInterfaceMode` has the same `Value()` as `m`, and `m` is the only
declared literal with that `Value()`. -/
theorem declared_mode_determined_by_Value (tbl : Char → Char) (m : MultiInterfaceMode)
    (hm : m = MultiInterfaceModeNone ∨ m = MultiInterfaceModeMultus) :
    (MultiInterfaceMode.mk (m.Value tbl)).Value tbl = m.Value tbl ∧
    (∀ m2 : MultiInterfaceMode, (m2 = MultiInterfaceModeNone ∨ m2 = MultiInterfaceModeMultus) →
      m2.Value tbl = m.Value tbl → m2 = m) := by
  have h1 : MultiInterfaceModeNone.Value tbl = "none" := rfl
  have h2 : MultiInterfaceModeMultus.Value tbl = "multus" := rfl
  have h3 : (MultiInterfaceMode.mk "none").Value tbl = "none" := rfl
  have h4 : (MultiInterfaceMode.mk "multus").Value tbl = "multus" := rfl
  have hne : ("none" : String) ≠ "multus" := by decide
  rcases hm with rfl | rfl
  · refine ⟨by rw [h1, h3], ?_⟩
    rintro m2 (rfl | rfl) heq
    · rfl
    · rw [h1, h2] at heq
      exact absurd heq.symm hne
  · refine ⟨by rw [h2, h4], ?_⟩
    rintro m2 (rfl | rfl) heq
    · rw [h1, h2] at heq
      exact absurd heq hne
    · rfl

/-- Witness of the amended C4 at `MultiInterfaceModeMultus`. -/
theorem declared_mode_determined_by_Value_witness :
    (MultiInterfaceMode.mk (MultiInterfaceModeMultus.Value sampleTable)).Value sampleTable =
      "multus" ∧
    MultiInterfaceMode.mk (MultiInterfaceModeMultus.Value sampleTable) ≠
      MultiInterfaceModeMultus :=
  ⟨(declared_mode_determined_by_Value sampleTable MultiInterfaceModeMultus (Or.inr rfl)).1,
   by decide⟩

/-- C6, as stated, fails: the field types are plain strings, so a well-formed
`IPPool` can hold an `Encapsulation` and a `NATOutgoing` that are neither a
declared literal nor empty, and a `CalicoNetworkSpec` can hold a set `HostPorts`
that is neither `Enabled` nor `Disabled`. -/
theorem enum_fields_admit_any_string :
    ¬ (strayPool.Encapsulation ∈ EncapsulationTypes ∨ strayPool.Encapsulation = ⟨""⟩) ∧
    ¬ (strayPool.NATOutgoing ∈ NATOutgoingTypes ∨ strayPool.NATOutgoing = ⟨""⟩) ∧
    (∃ h, straySpec.HostPorts = some h ∧ h ≠ HostPortsEnabled ∧ h ≠ HostPortsDisabled) ∧
    ¬ (∀ p : IPPool,
        (p.Encapsulation ∈ EncapsulationTypes ∨ p.Encapsulation = ⟨""⟩) ∧
        (p.NATOutgoing ∈ NATOutgoingTypes ∨ p.NATOutgoing = ⟨""⟩)) ∧
    ¬ (∀ (s : CalicoNetworkSpec) (h : HostPortsType), s.HostPorts = some h →
        h = HostPortsEnabled ∨ h = HostPortsDisabled) := by
  refine ⟨by decide, by decide, ⟨⟨"Maybe"⟩, rfl, by decide, by decide⟩, ?_, ?_⟩
  · intro hall
    have hbad := (hall strayPool).1
    revert hbad
    decide
  · intro hall
    have hbad := hall straySpec ⟨"Maybe"⟩ rfl
    revert hbad
    decide

/-- C6, amended: for every `IPPool` and every `CalicoNetworkSpec` that pass the
`Enum` validation markers of their fields, `Encapsulation` is one of the five
declared literals or empty, `NATOutgoing` is `Enabled`, `Disabled` or empty, and
a set `HostPorts` is `Enabled` or `Disabled`. -/
theorem enum_fields_declared_when_markers_pass (p : IPPool) (s : CalicoNetworkSpec)
    (hp : p.markersOK = true) (hs : s.markersOK = true) :
    (p.Encapsulation = EncapsulationIPIPCrossSubnet ∨ p.Encapsulation = EncapsulationIPIP ∨
      p.Encapsulation = EncapsulationVXLAN ∨ p.Encapsulation = EncapsulationVXLANCrossSubnet ∨
      p.Encapsulation = EncapsulationNone ∨ p.Encapsulation = ⟨""⟩) ∧
    (p.NATOutgoing = NATOutgoingEnabled ∨ p.NATOutgoing = NATOutgoingDisabled ∨
      p.NATOutgoing = ⟨""⟩) ∧
    (∀ h : HostPortsType, s.HostPorts = some h →
      h = HostPortsEnabled ∨ h = HostPortsDisabled) := by
  obtain ⟨cidr, ⟨enc⟩, ⟨nat⟩, sel, bs⟩ := p
  simp only [IPPool.markersOK, enumStringOK, EncapsulationEnum, NATOutgoingEnum,
    Bool.and_eq_true, Bool.or_eq_true, beq_iff_eq, List.contains_eq_any_beq, List.any_cons,
    List.any_nil, Bool.or_false] at hp
  obtain ⟨he, hn⟩ := hp
  refine ⟨?_, ?_, ?_⟩
  · simp only [EncapsulationIPIPCrossSubnet, EncapsulationIPIP, EncapsulationVXLAN,
      EncapsulationVXLANCrossSubnet, EncapsulationNone, EncapsulationType.mk.injEq]
    tauto
  · simp only [NATOutgoingEnabled, NATOutgoingDisabled, NATOutgoingType.mk.injEq]
    tauto
  · rintro ⟨h⟩ hh
    simp only [CalicoNetworkSpec.markersOK, hh, Option.map_some', enumPointerOK, HostPortsEnum,
      Bool.and_eq_true, List.contains_eq_any_beq, List.any_cons, List.any_nil, Bool.or_false,
      Bool.or_eq_true, beq_iff_eq] at hs
    simp only [HostPortsEnabled, HostPortsDisabled, HostPortsType.mk.injEq]
    exact hs.1

/-- Witness of the amended C6 at a pool with `VXLAN` and `Disabled` and a network
spec with `HostPorts` set to `Disabled`. -/
theorem enum_fields_declared_when_markers_pass_witness :
    samplePool.markersOK = true ∧ sampleSpec.markersOK = true ∧
    (samplePool.NATOutgoing = NATOutgoingEnabled ∨
      samplePool.NATOutgoing = NATOutgoingDisabled ∨ samplePool.NATOutgoing = ⟨""⟩) ∧
    (HostPortsDisabled = HostPortsEnabled ∨ HostPortsDisabled = HostPortsDisabled) :=
  ⟨by decide, by decide,
   (enum_fields_declared_when_markers_pass samplePool sampleSpec (by decide) (by decide)).2.1,
   (enum_fields_declared_when_markers_pass samplePool sampleSpec (by decide) (by decide)).2.2
     HostPortsDisabled rfl⟩

/-- C9: presence of the optional `hostPorts` field survives JSON serialization of
`CalicoNetworkSpec`.  A document with `hostPorts: "Enabled"` deserializes to a
set pointer holding `HostPortsEnabled`; a document without the key (the empty
object, and any object none of whose keys is `hostPorts`) deserializes to nil;
the two results differ; `HostPortsDisabled` set differs from unset, as values
and as decoding results; serializing a spec whose `HostPorts` is nil emits no
`hostPorts` key, serializing a set one emits the key with its string; and
decoding the serialization of any spec succeeds and gives the spec back, its
`HostPorts` included (an empty `IPPools` slice comes back nil). -/
theorem hostPorts_presence_survives_JSON :
    CalicoNetworkSpec.unmarshal (JSON.obj [("hostPorts", JSON.str "Enabled")]) =
      .ok { CalicoNetworkSpec.zero with HostPorts := some HostPortsEnabled } ∧
    CalicoNetworkSpec.unmarshal (JSON.obj []) = .ok CalicoNetworkSpec.zero ∧
    CalicoNetworkSpec.zero.HostPorts = none ∧
    (∀ (kvs : List (String × JSON)) (t : CalicoNetworkSpec),
      (∀ kv ∈ kvs, kv.1 ≠ "hostPorts") →
      CalicoNetworkSpec.unmarshal (JSON.obj kvs) = .ok t → t.HostPorts = none) ∧
    CalicoNetworkSpec.unmarshal (JSON.obj [("hostPorts", JSON.str "Enabled")]) ≠
      CalicoNetworkSpec.unmarshal (JSON.obj []) ∧
    (some HostPortsDisabled : Option HostPortsType) ≠ none ∧
    CalicoNetworkSpec.unmarshal (JSON.obj [("hostPorts", JSON.str "Disabled")]) =
      .ok { CalicoNetworkSpec.zero with HostPorts := some HostPortsDisabled } ∧
    CalicoNetworkSpec.unmarshal (JSON.obj [("hostPorts", JSON.str "Disabled")]) ≠
      CalicoNetworkSpec.unmarshal (JSON.obj []) ∧
    (∀ s : CalicoNetworkSpec, s.HostPorts = none → "hostPorts" ∉ s.toJSON.keys) ∧
    (∀ (s : CalicoNetworkSpec) (v : HostPortsType), s.HostPorts = some v →
      ("hostPorts", JSON.str v.val) ∈ s.toJSON.members) ∧
    (∀ s : CalicoNetworkSpec,
      CalicoNetworkSpec.unmarshal s.toJSON = .ok { s with IPPools := nilIfEmpty s.IPPools }) ∧
    (∀ s : CalicoNetworkSpec, ∃ t : CalicoNetworkSpec,
      CalicoNetworkSpec.unmarshal s.toJSON = .ok t ∧ t.HostPorts = s.HostPorts) := by
  have hE : CalicoNetworkSpec.unmarshal (JSON.obj [("hostPorts", JSON.str "Enabled")]) =
      .ok { CalicoNetworkSpec.zero with HostPorts := some HostPortsEnabled } := rfl
  have hD : CalicoNetworkSpec.unmarshal (JSON.obj [("hostPorts", JSON.str "Disabled")]) =
      .ok { CalicoNetworkSpec.zero with HostPorts := some HostPortsDisabled } := rfl
  have h0 : CalicoNetworkSpec.unmarshal (JSON.obj []) = .ok CalicoNetworkSpec.zero := rfl
  refine ⟨hE, h0, rfl, ?_, ?_, by decide, hD, ?_, CalicoNetworkSpec.toJSON_keys_of_nil,
    CalicoNetworkSpec.toJSON_member_of_set, CalicoNetworkSpec.unmarshal_toJSON, ?_⟩
  · intro kvs t hk ht
    exact CalicoNetworkSpec.foldFields_HostPorts kvs CalicoNetworkSpec.zero t hk ht
  · rw [hE, h0]
    intro h
    have h2 := Except.ok.inj h
    revert h2
    decide
  · rw [hD, h0]
    intro h
    have h2 := Except.ok.inj h
    revert h2
    decide
  · intro s
    exact ⟨_, CalicoNetworkSpec.unmarshal_toJSON s, rfl⟩

/-- Witness of C9 at the document that holds only `mtu: 1400`: none of its keys is
`hostPorts`, it decodes to `mtuSpec`, whose `HostPorts` is nil, and `mtuSpec`
serializes without a `hostPorts` key. -/
theorem hostPorts_presence_survives_JSON_witness :
    (∀ kv ∈ [("mtu", JSON.num 1400)], kv.1 ≠ "hostPorts") ∧
    CalicoNetworkSpec.unmarshal (JSON.obj [("mtu", JSON.num 1400)]) = .ok mtuSpec ∧
    mtuSpec.HostPorts = none ∧
    "hostPorts" ∉ mtuSpec.toJSON.keys :=
  ⟨by decide, rfl,
   hostPorts_presence_survives_JSON.2.2.2.1 [("mtu", JSON.num 1400)] mtuSpec (by decide) rfl,
   hostPorts_presence_survives_JSON.2.2.2.2.2.2.2.2.1 mtuSpec rfl⟩

end OperatorV1
